import Mathlib

/-!
Verification development for the CellUniverse entry point (`main.py`).

The file shallowly embeds the entry-point logic of the program:
  * `parse_args_post` — the post-parsing validation and defaulting performed by
    `parse_args` after `argparse` has produced the raw argument values,
  * `load_config` — the configuration validation of `load_config`,
  * `get_inputfiles` — the frame-discovery loop,
  * `mainRun` — the control flow of `main`, with its external collaborators
    (dask cluster, config/colony files, the optimizers from `optimization.py`
    and `global_optimization.py`) abstracted into an `Env` record of outcomes.

File-system existence checks, the optimizer outcomes and the parsed raw
configuration are parameters of the model (`Env`); everything else is a direct
translation of `main.py`.  The unbounded `itertools.count` loop of
`get_inputfiles` is modelled with explicit fuel; a `none` result means the
Python loop would not have terminated within that many iterations.
-/

namespace CellUniverse

/-- A bacillus cell as it appears in the lineage output.  `main` only ever
serializes the properties with `str(...)` and joins them with commas, so the
model carries the already-serialized property strings. -/
structure Cell where
  name : String
  x : String
  y : String
  width : String
  length : String
  rotation : String
deriving DecidableEq, Repr

/-- The (flattened) colony committed for one frame: the list of cells iterated
by `for cellnode in colony` in `main`. -/
abbrev Colony := List Cell

/-- The command-line arguments of `main.py` that its own control flow reads.
`start_temp`/`end_temp` are `float` options in the source; `main.py` never
computes with them (it only tests them against `None` and forwards them), so
the model carries them as `Option Rat`. -/
structure Args where
  frame_first : Int
  frame_last : Int
  workers : Int
  jobs : Int
  keep : Int
  cluster : String
  no_parallel : Bool
  global_optimization : Bool
  auto_temp : Int
  start_temp : Option Rat
  end_temp : Option Rat
deriving DecidableEq, Repr

/-- Post-parsing validation and defaulting of `parse_args` (main.py lines
66-77): default `workers` to the processor count, require `--jobs` for
non-local clusters, and default `jobs` to `workers`.  An `Except.error` models
the `ValueError` raised there. -/
def parse_args_post (cpuCount : Int) (p : Args) : Except String Args :=
  let p1 := if p.workers = -1 then { p with workers := cpuCount } else p
  if p1.jobs = -1 then
    if p1.cluster = "" then
      Except.ok { p1 with jobs := p1.workers }
    else
      Except.error "-j/--jobs is required for non-local clusters"
  else
    Except.ok p1

/-- ASCII lowercasing of one character, as Python's `str.lower` acts on the
identifiers this program compares (`'Bacilli'.lower() == 'bacilli'`). -/
def charLower (c : Char) : Char :=
  if 'A' ≤ c ∧ c ≤ 'Z' then Char.ofNat (c.toNat + 32) else c

/-- Python's `str.lower()` on the cell-type identifier. -/
def pyLower (s : String) : String := String.mk (s.data.map charLower)

/-- The parsed contents of the configuration file, as seen by the checks in
`load_config` (main.py lines 80-101).  `checkconfigError` abstracts the
outcome of `celltype.checkconfig(config)` (defined in `cell.py`, outside the
entry point): `some m` means it raised with message `m`. -/
structure RawConfig where
  isDict : Bool
  hasCellType : Bool
  hasPixelsPerMicron : Bool
  hasFramesPerSecond : Bool
  cellType : String
  checkconfigError : Option String
deriving DecidableEq, Repr

/-- Model of `load_config` (main.py lines 80-101): validates the parsed configuration
and returns it. -/
def load_config (r : RawConfig) : Except String RawConfig :=
  if r.isDict = false then Except.error "Invalid config: must be a dictionary"
  else if r.hasCellType = false then
    Except.error "Invalid config: missing global.cellType"
  else if r.hasPixelsPerMicron = false then
    Except.error "Invalid config: missing global.pixelsPerMicron"
  else if r.hasFramesPerSecond = false then
    Except.error "Invalid config: missing global.framesPerSecond"
  else if pyLower r.cellType = "bacilli" then
    match r.checkconfigError with
    | some m => Except.error m
    | none => Except.ok r
  else Except.error "Invalid config: unsupported cell type"

/-- The `for i in count(args.frame_first)` loop of `get_inputfiles` (main.py
lines 130-142).  `fe i` models `Path(args.input % i).exists() and is_file()`;
a file is identified by its frame index.  The loop is unbounded in the source,
so it is modelled with fuel: `none` means no exit within `fuel` iterations. -/
def getInputLoop (fe : Int → Bool) (frame_last frame_first : Int) :
    Nat → Int → List Int → Option (Except String (List Int))
  | 0, _, _ => none
  | fuel + 1, i, acc =>
    if fe i then
      if i = frame_last then some (Except.ok (acc ++ [i]))
      else getInputLoop fe frame_last frame_first fuel (i + 1) (acc ++ [i])
    else if frame_last < 0 ∧ frame_first ≠ i then some (Except.ok acc)
    else some (Except.error "Input file not found")

/-- Model of `get_inputfiles` (main.py lines 121-142): the two interval guards followed
by the discovery loop.  The first guard is transcribed exactly as written in
the source: it compares `args.frame_first` with itself. -/
def get_inputfiles (fe : Int → Bool) (frame_first frame_last : Int)
    (fuel : Nat) : Option (Except String (List Int)) :=
  if frame_first < frame_first ∧ frame_last ≥ 0 then
    some (Except.error "Invalid interval: frame_first must be less than frame_last")
  else if frame_first < 0 then
    some (Except.error "Invalid interval: frame_first must be greater or equal to 0")
  else getInputLoop fe frame_last frame_first fuel frame_first []

/-- File-existence predicate describing a directory holding exactly the frames
with indices `ff..N`. -/
def stdFe (ff N : Int) : Int → Bool :=
  fun i => decide (ff ≤ i ∧ i ≤ N)

/-- The list of `n` consecutive integers starting at `j`. -/
def rangeList : Int → Nat → List Int
  | _, 0 => []
  | j, n + 1 => j :: rangeList (j + 1) n

lemma getInputLoop_open_range (ff N : Int) (hN : ff ≤ N) (hff : 0 ≤ ff) :
    ∀ (fuel : Nat) (j : Int) (acc : List Int), ff ≤ j → j ≤ N + 1 →
      (N + 2 - j).toNat ≤ fuel →
      getInputLoop (stdFe ff N) (-1) ff fuel j acc =
        some (Except.ok (acc ++ rangeList j (N + 1 - j).toNat))
  | 0, j, _, _, h2, h3 => absurd h3 (by omega)
  | fuel + 1, j, acc, h1, h2, h3 => by
    by_cases hj : j ≤ N
    · have hfe : stdFe ff N j = true := by
        simp only [stdFe, decide_eq_true_eq]
        exact ⟨h1, hj⟩
      rw [getInputLoop, if_pos hfe, if_neg (by omega : ¬ j = -1)]
      rw [getInputLoop_open_range ff N hN hff fuel (j + 1) (acc ++ [j])
        (by omega) (by omega) (by omega)]
      have hn : (N + 1 - j).toNat = (N + 1 - (j + 1)).toNat + 1 := by omega
      rw [hn, rangeList, List.append_assoc]
      rfl
    · have hj' : j = N + 1 := by omega
      subst hj'
      have hfe : stdFe ff N (N + 1) = false := by
        simp only [stdFe, decide_eq_false_iff_not]
        omega
      rw [getInputLoop, if_neg (by simp [hfe]), if_pos ⟨by omega, by omega⟩]
      have hn : (N + 1 - (N + 1)).toNat = 0 := by omega
      rw [hn, rangeList, List.append_nil]

lemma getInputLoop_bounded (ff N L : Int) (hLN : L ≤ N) (hff : 0 ≤ ff) :
    ∀ (fuel : Nat) (j : Int) (acc : List Int), ff ≤ j → j ≤ L →
      (L + 1 - j).toNat ≤ fuel →
      getInputLoop (stdFe ff N) L ff fuel j acc =
        some (Except.ok (acc ++ rangeList j (L + 1 - j).toNat))
  | 0, j, _, _, h2, h3 => absurd h3 (by omega)
  | fuel + 1, j, acc, h1, h2, h3 => by
    have hfe : stdFe ff N j = true := by
      simp only [stdFe, decide_eq_true_eq]
      omega
    rw [getInputLoop, if_pos hfe]
    by_cases hj : j = L
    · rw [if_pos hj, hj]
      have hn : (L + 1 - L).toNat = 1 := by omega
      rw [hn, rangeList, rangeList]
    · rw [if_neg hj]
      rw [getInputLoop_bounded ff N L hLN hff fuel (j + 1) (acc ++ [j])
        (by omega) (by omega) (by omega)]
      have hn : (L + 1 - j).toNat = (L + 1 - (j + 1)).toNat + 1 := by omega
      rw [hn, rangeList, List.append_assoc]
      rfl

lemma getInputLoop_cases (fe : Int → Bool) (fl ff : Int) :
    ∀ (fuel : Nat) (i : Int) (acc : List Int),
      getInputLoop fe fl ff fuel i acc = none ∨
      (∃ l, getInputLoop fe fl ff fuel i acc = some (Except.ok l)) ∨
      getInputLoop fe fl ff fuel i acc = some (Except.error "Input file not found")
  | 0, _, _ => Or.inl rfl
  | fuel + 1, i, acc => by
    rw [getInputLoop]
    by_cases h1 : fe i
    · rw [if_pos h1]
      by_cases h2 : i = fl
      · rw [if_pos h2]
        exact Or.inr (Or.inl ⟨acc ++ [i], rfl⟩)
      · rw [if_neg h2]
        exact getInputLoop_cases fe fl ff fuel (i + 1) (acc ++ [i])
    · rw [if_neg (by simpa using h1)]
      by_cases h3 : fl < 0 ∧ ff ≠ i
      · rw [if_pos h3]
        exact Or.inr (Or.inl ⟨acc, rfl⟩)
      · rw [if_neg h3]
        exact Or.inr (Or.inr rfl)

/-- Claim C3: frame discovery.  With files present at exactly the consecutive
indices `ff..N`, `get_inputfiles` with `frame_last = -1` returns exactly the
files `ff..N`, stopping at the first missing index; with
`frame_last = L` (`ff ≤ L ≤ N`) it returns exactly the files `ff..L` and
ignores the files beyond index `L`. -/
theorem get_inputfiles_frame_discovery (ff N L : Int) (fuel : Nat)
    (hff : 0 ≤ ff) (hN : ff ≤ N) (hL1 : ff ≤ L) (hL2 : L ≤ N)
    (hfuel : (N + 2 - ff).toNat ≤ fuel) :
    get_inputfiles (stdFe ff N) ff (-1) fuel =
      some (Except.ok (rangeList ff (N + 1 - ff).toNat)) ∧
    get_inputfiles (stdFe ff N) ff L fuel =
      some (Except.ok (rangeList ff (L + 1 - ff).toNat)) := by
  unfold get_inputfiles
  rw [if_neg (by omega), if_neg (by omega), if_neg (by omega), if_neg (by omega)]
  constructor
  · have h := getInputLoop_open_range ff N hN hff fuel ff [] le_rfl (by omega) hfuel
    simpa using h
  · have h := getInputLoop_bounded ff N L hL2 hff fuel ff [] le_rfl hL1 (by omega)
    simpa using h

/-- Witness for C3 at the spec's own example: files at indices `0..4`;
`frame_last = -1` yields `[0,1,2,3,4]`, `frame_last = 2` yields `[0,1,2]`. -/
theorem get_inputfiles_frame_discovery_witness :
    get_inputfiles (stdFe 0 4) 0 (-1) 7 =
      some (Except.ok (rangeList 0 ((4 + 1 - 0 : Int)).toNat)) ∧
    get_inputfiles (stdFe 0 4) 0 2 7 =
      some (Except.ok (rangeList 0 ((2 + 1 - 0 : Int)).toNat)) :=
  get_inputfiles_frame_discovery 0 4 2 7 (by decide) (by decide) (by decide)
    (by decide) (by decide)

/-- Claim C8: the `Invalid interval: frame_first must be less than frame_last`
branch of `get_inputfiles` is unreachable: every outcome is either
non-termination, a file list, the file-not-found error, or the negativity
error — never the interval error.  In particular `frame_last ≥ 0` with
`frame_last < frame_first` is not rejected as an invalid interval. -/
theorem get_inputfiles_interval_branch_unreachable (fe : Int → Bool)
    (ff fl : Int) (fuel : Nat) :
    get_inputfiles fe ff fl fuel = none ∨
    (∃ l, get_inputfiles fe ff fl fuel = some (Except.ok l)) ∨
    get_inputfiles fe ff fl fuel = some (Except.error "Input file not found") ∨
    get_inputfiles fe ff fl fuel =
      some (Except.error "Invalid interval: frame_first must be greater or equal to 0") := by
  unfold get_inputfiles
  rw [if_neg (by omega)]
  by_cases h : ff < 0
  · rw [if_pos h]
    exact Or.inr (Or.inr (Or.inr rfl))
  · rw [if_neg h]
    rcases getInputLoop_cases fe fl ff fuel ff [] with h1 | ⟨l, h2⟩ | h3
    · exact Or.inl h1
    · exact Or.inr (Or.inl ⟨l, h2⟩)
    · exact Or.inr (Or.inr (Or.inl h3))

/-- Claim C9: with an open-ended range (`frame_last = -1`), a missing file at
index `frame_first` raises `Input file not found` instead of returning an
empty sequence. -/
theorem get_inputfiles_missing_first_frame (fe : Int → Bool) (ff : Int)
    (fuel : Nat) (hff : 0 ≤ ff) (hfe : fe ff = false) (hfuel : 1 ≤ fuel) :
    get_inputfiles fe ff (-1) fuel = some (Except.error "Input file not found") := by
  obtain ⟨n, rfl⟩ : ∃ n, fuel = n + 1 := ⟨fuel - 1, by omega⟩
  unfold get_inputfiles
  rw [if_neg (by omega), if_neg (by omega)]
  rw [getInputLoop, if_neg (by simp [hfe]), if_neg (by simp)]

/-- Witness for C9: no files at all, `frame_first = 0`. -/
theorem get_inputfiles_missing_first_frame_witness :
    get_inputfiles (fun _ => false) 0 (-1) 1 =
      some (Except.error "Input file not found") :=
  get_inputfiles_missing_first_frame (fun _ => false) 0 1 (by decide) rfl
    (by decide)

/-- Errors raised by the external collaborators of `main` (colony loading,
the per-frame optimizer, the auto temperature scheduler, the global
optimizer): an ordinary exception with a message, or a `KeyboardInterrupt`
delivered during that call. -/
inductive ExtErr where
  | keyboardInterrupt
  | err (msg : String)
deriving DecidableEq, Repr

/-- The ways `main` can terminate abnormally. `tempConflict` is the
`Exception` raised at main.py lines 147-148; `configError` wraps the
`ValueError`s of `load_config`; `inputError` wraps the `ValueError`s of
`get_inputfiles`; `indexError` models the `IndexError` of
`get_inputfiles(args)[0]` on an empty list; `ext` wraps an error raised by an
external collaborator. -/
inductive RunError where
  | tempConflict
  | configError (msg : String)
  | inputError (msg : String)
  | indexError
  | ext (e : ExtErr)
deriving DecidableEq, Repr

/-- Observable milestones of one `main` run, in order of occurrence. A
`frameOptimized` event records the frame index together with the
`start_temp`/`end_temp` values in effect when `optimize` ran for it. -/
inductive Event where
  | configLoad
  | colonyLoad
  | fileOpen
  | globalOptRun
  | autoTempRun
  | frameOptimized (i : Int) (st et : Option Rat)
deriving DecidableEq, Repr

/-- The environment a `main` run executes in: the file system and the
outcomes of the external collaborators.  `optimizeOutcome i st et` is the
result of `optimize` on frame `i` with the temperatures in effect (the
returned colony is the flattened committed colony); `globalOptOutcome` is the
outcome of `global_optimization.optimize` together with the lines it appends
to the lineage file; `autoTempOutcome` is the outcome of
`auto_temp_schedule`. -/
structure Env where
  fileExists : Int → Bool
  fileName : Int → String
  rawConfig : RawConfig
  loadColonyOutcome : Except ExtErr Colony
  globalOptOutcome : Except ExtErr (List String)
  autoTempOutcome : Except ExtErr (Rat × Rat)
  optimizeOutcome : Int → Option Rat → Option Rat → Except ExtErr Colony

deriving instance DecidableEq for Except

/-- The observable outcome of one `main` run: the return value or propagated
exception, the milestone trace, whether the lineage file was opened, the lines
it contains, and whether its handle was closed by the time `main` exited. -/
structure MainOut where
  result : Except RunError Unit
  events : List Event
  fileOpened : Bool
  fileLines : List String
  fileClosed : Bool
deriving DecidableEq, Repr

/-- The lineage header columns written at main.py lines 181-184. -/
def headerFor (celltype : String) : List String :=
  ["file", "name"] ++
    (if celltype = "bacilli" then ["x", "y", "width", "length", "rotation"] else [])

/-- One lineage row, written at main.py lines 204-213. -/
def rowFor (celltype : String) (filename : String) (c : Cell) : String :=
  String.intercalate ","
    ([filename, c.name] ++
      (if celltype = "bacilli" then [c.x, c.y, c.width, c.length, c.rotation] else []))

/-- The greedy per-frame loop of `main` (main.py lines 198-213): optimize each
frame in order, appending one lineage row per cell of the committed colony;
an exception from `optimize` aborts the loop before any row for that frame is
written. -/
def frameLoop (env : Env) (celltype : String) (st et : Option Rat) :
    List Int → List Event → List String →
      Except RunError Unit × List Event × List String
  | [], evs, lines => (Except.ok (), evs, lines)
  | i :: rest, evs, lines =>
    match env.optimizeOutcome i st et with
    | Except.error e => (Except.error (RunError.ext e), evs, lines)
    | Except.ok colony =>
      frameLoop env celltype st et rest
        (evs ++ [Event.frameOptimized i st et])
        (lines ++ colony.map (rowFor celltype (env.fileName i)))

/-- The body of the `try` block of `main` (main.py lines 167-213), returning
the result, the milestone trace, whether the lineage file was opened, and its
lines.  `none` models non-termination of a `get_inputfiles` call. -/
def mainTry (args : Args) (env : Env) (fuel : Nat) :
    Option (Except RunError Unit × List Event × Bool × List String) :=
  match load_config env.rawConfig with
  | Except.error m => some (Except.error (RunError.configError m), [], false, [])
  | Except.ok config =>
    let celltype := pyLower config.cellType
    match env.loadColonyOutcome with
    | Except.error e =>
      some (Except.error (RunError.ext e), [Event.configLoad], false, [])
    | Except.ok _colony =>
      let evs := [Event.configLoad, Event.colonyLoad, Event.fileOpen]
      let lines := [String.intercalate "," (headerFor celltype)]
      if args.global_optimization then
        match get_inputfiles env.fileExists args.frame_first args.frame_last fuel with
        | none => none
        | some (Except.error m) =>
          some (Except.error (RunError.inputError m), evs, true, lines)
        | some (Except.ok _files) =>
          match env.globalOptOutcome with
          | Except.error e => some (Except.error (RunError.ext e), evs, true, lines)
          | Except.ok extra =>
            some (Except.ok (), evs ++ [Event.globalOptRun], true, lines ++ extra)
      else if args.auto_temp = 1 then
        match get_inputfiles env.fileExists args.frame_first args.frame_last fuel with
        | none => none
        | some (Except.error m) =>
          some (Except.error (RunError.inputError m), evs, true, lines)
        | some (Except.ok files) =>
          match files with
          | [] => some (Except.error RunError.indexError, evs, true, lines)
          | _ :: _ =>
            match env.autoTempOutcome with
            | Except.error e => some (Except.error (RunError.ext e), evs, true, lines)
            | Except.ok (t1, t2) =>
              match frameLoop env celltype (some t1) (some t2) files
                  (evs ++ [Event.autoTempRun]) lines with
              | (r, evs2, lines2) => some (r, evs2, true, lines2)
      else
        match get_inputfiles env.fileExists args.frame_first args.frame_last fuel with
        | none => none
        | some (Except.error m) =>
          some (Except.error (RunError.inputError m), evs, true, lines)
        | some (Except.ok files) =>
          match frameLoop env celltype args.start_temp args.end_temp files evs lines with
          | (r, evs2, lines2) => some (r, evs2, true, lines2)

/-- Model of `main` (main.py lines 145-223): the mutual-exclusion check for manual
temperatures against auto mode, then the `try` body, then the `finally` block,
which closes the lineage handle exactly when it was opened.  The
`except KeyboardInterrupt: raise` clause re-raises, so all exceptions
propagate unchanged through the `finally`. -/
def mainRun (args : Args) (env : Env) (fuel : Nat) : Option MainOut :=
  if (args.start_temp.isSome || args.end_temp.isSome) && (args.auto_temp == 1) then
    some ⟨Except.error RunError.tempConflict, [], false, [], false⟩
  else
    match mainTry args env fuel with
    | none => none
    | some (r, evs, opened, lines) => some ⟨r, evs, opened, lines, opened⟩

/-- A reference argument set: local run, manual mode, open-ended frame range
starting at 0.  Individual claims override the fields they exercise. -/
def argsBase : Args :=
  { frame_first := 0, frame_last := -1, workers := 4, jobs := 4, keep := 1,
    cluster := "", no_parallel := true, global_optimization := false,
    auto_temp := 0, start_temp := none, end_temp := none }

/-- A reference cell for concrete runs. -/
def cellA : Cell := ⟨"cellA", "10", "20", "3", "4", "0.5"⟩

/-- A fully successful environment: frames 0 and 1 exist, the configuration is
a valid bacilli configuration, and every external call succeeds. -/
def envOk : Env :=
  { fileExists := fun i => decide (0 ≤ i ∧ i ≤ 1)
    fileName := fun i => if i = 0 then "img000.png" else "img001.png"
    rawConfig := ⟨true, true, true, true, "bacilli", none⟩
    loadColonyOutcome := Except.ok [cellA]
    globalOptOutcome := Except.ok []
    autoTempOutcome := Except.ok (10, 1)
    optimizeOutcome := fun _ _ _ => Except.ok [cellA] }

/-- Like `envOk`, but the user interrupts during the optimization of the
second frame (index 1). -/
def envInt : Env :=
  { envOk with
    optimizeOutcome := fun i _ _ =>
      if i = 0 then Except.ok [cellA] else Except.error ExtErr.keyboardInterrupt }

/-- Claim C1 (code bug): `parse_args` does not enforce `keep ≤ jobs`.  With
`keep = 5 > jobs = 2` the post-parsing validation returns the arguments
unchanged instead of failing, and a run with these arguments reaches the
per-frame optimization loop. -/
theorem parse_args_keep_not_enforced :
    parse_args_post 8 { argsBase with keep := 5, jobs := 2 } =
      Except.ok { argsBase with keep := 5, jobs := 2 } ∧
    (2 : Int) < 5 ∧
    (∃ out, mainRun { argsBase with keep := 5, jobs := 2 } envOk 5 = some out ∧
      out.result = Except.ok () ∧
      Event.frameOptimized 0 none none ∈ out.events) := by
  refine ⟨by decide, by decide,
    ⟨⟨Except.ok (),
      [Event.configLoad, Event.colonyLoad, Event.fileOpen,
        Event.frameOptimized 0 none none, Event.frameOptimized 1 none none],
      true,
      ["file,name,x,y,width,length,rotation",
        "img000.png,cellA,10,20,3,4,0.5", "img001.png,cellA,10,20,3,4,0.5"],
      true⟩, ?_, by decide, by decide⟩⟩
  decide

lemma frameLoop_all_ok (env : Env) (ct : String) (st et : Option Rat)
    (colOf : Int → Colony) :
    ∀ (files : List Int) (evs : List Event) (lines : List String),
      (∀ j ∈ files, env.optimizeOutcome j st et = Except.ok (colOf j)) →
      frameLoop env ct st et files evs lines =
        (Except.ok (),
          evs ++ files.map (fun j => Event.frameOptimized j st et),
          lines ++ files.flatMap (fun j => (colOf j).map (rowFor ct (env.fileName j))))
  | [], evs, lines, _ => by simp [frameLoop]
  | i :: rest, evs, lines, h => by
    have hi := h i (List.mem_cons_self i rest)
    have ih := frameLoop_all_ok env ct st et colOf rest
      (evs ++ [Event.frameOptimized i st et])
      (lines ++ (colOf i).map (rowFor ct (env.fileName i)))
      (fun j hj => h j (List.mem_cons_of_mem i hj))
    rw [frameLoop, hi]
    simp only [ih]
    simp [List.append_assoc]

lemma frameLoop_stops_at_error (env : Env) (ct : String) (st et : Option Rat)
    (colOf : Int → Colony) (e : ExtErr) :
    ∀ (done : List Int) (ik : Int) (rest : List Int) (evs : List Event)
      (lines : List String),
      (∀ j ∈ done, env.optimizeOutcome j st et = Except.ok (colOf j)) →
      env.optimizeOutcome ik st et = Except.error e →
      frameLoop env ct st et (done ++ ik :: rest) evs lines =
        (Except.error (RunError.ext e),
          evs ++ done.map (fun j => Event.frameOptimized j st et),
          lines ++ done.flatMap (fun j => (colOf j).map (rowFor ct (env.fileName j))))
  | [], ik, rest, evs, lines, _, he => by
    rw [List.nil_append, frameLoop, he]
    simp
  | i :: done, ik, rest, evs, lines, h, he => by
    have hi := h i (List.mem_cons_self i done)
    have ih := frameLoop_stops_at_error env ct st et colOf e done ik rest
      (evs ++ [Event.frameOptimized i st et])
      (lines ++ (colOf i).map (rowFor ct (env.fileName i)))
      (fun j hj => h j (List.mem_cons_of_mem i hj)) he
    rw [List.cons_append, frameLoop, hi]
    simp only [ih]
    simp [List.append_assoc]

lemma frameLoop_events_from (env : Env) (ct : String) (st et : Option Rat) :
    ∀ (files : List Int) (evs : List Event) (lines : List String) (ev : Event),
      ev ∈ (frameLoop env ct st et files evs lines).2.1 →
      ev ∈ evs ∨ ∃ i, ev = Event.frameOptimized i st et
  | [], evs, lines, ev, h => Or.inl (by simpa [frameLoop] using h)
  | i :: rest, evs, lines, ev, h => by
    rw [frameLoop] at h
    rcases ho : env.optimizeOutcome i st et with e | colony
    · rw [ho] at h
      exact Or.inl (by simpa using h)
    · rw [ho] at h
      have h' : ev ∈ (frameLoop env ct st et rest
          (evs ++ [Event.frameOptimized i st et])
          (lines ++ colony.map (rowFor ct (env.fileName i)))).2.1 := by
        simpa using h
      rcases frameLoop_events_from env ct st et rest _ _ ev h' with h1 | h2
      · rcases List.mem_append.mp h1 with h1a | h1b
        · exact Or.inl h1a
        · exact Or.inr ⟨i, by simpa using h1b⟩
      · exact Or.inr h2

lemma frameLoop_result_shape (env : Env) (ct : String) (st et : Option Rat) :
    ∀ (files : List Int) (evs : List Event) (lines : List String),
      (frameLoop env ct st et files evs lines).1 = Except.ok () ∨
      ∃ e, (frameLoop env ct st et files evs lines).1 = Except.error (RunError.ext e)
  | [], evs, lines => Or.inl (by simp [frameLoop])
  | i :: rest, evs, lines => by
    rw [frameLoop]
    rcases ho : env.optimizeOutcome i st et with e | colony
    · exact Or.inr ⟨e, rfl⟩
    · exact frameLoop_result_shape env ct st et rest _ _

/-- Under the conditions that let `main` survive its pre-loop phases, the run
is exactly the per-frame loop seeded with the header line; `st`/`et` are the
temperatures in effect (the supplied ones in manual mode, the calibrated ones
in auto mode). -/
lemma mainRun_reaches_loop (args : Args) (env : Env) (fuel : Nat)
    (cfg : RawConfig) (files : List Int) (st et : Option Rat)
    (hg : args.global_optimization = false)
    (hcfg : load_config env.rawConfig = Except.ok cfg)
    (hcol : ∃ c, env.loadColonyOutcome = Except.ok c)
    (hfiles : get_inputfiles env.fileExists args.frame_first args.frame_last fuel =
      some (Except.ok files))
    (hne : args.auto_temp = 1 → files ≠ [])
    (htemps : (args.auto_temp ≠ 1 ∧ st = args.start_temp ∧ et = args.end_temp) ∨
      (args.auto_temp = 1 ∧ args.start_temp = none ∧ args.end_temp = none ∧
        ∃ t1 t2, env.autoTempOutcome = Except.ok (t1, t2) ∧
          st = some t1 ∧ et = some t2)) :
    ∃ evs0, ∀ r evs2 lines2,
      frameLoop env (pyLower cfg.cellType) st et files evs0
        [String.intercalate "," (headerFor (pyLower cfg.cellType))] =
          (r, evs2, lines2) →
      mainRun args env fuel = some ⟨r, evs2, true, lines2, true⟩ := by
  obtain ⟨c, hc⟩ := hcol
  rcases htemps with ⟨h1, h2, h3⟩ | ⟨h1, h2, h3, t1, t2, h4, h5, h6⟩
  · refine ⟨[Event.configLoad, Event.colonyLoad, Event.fileOpen], ?_⟩
    intro r evs2 lines2 hfl
    have hb1 : (args.auto_temp == 1) = false := by simp [h1]
    have hcond : ((args.start_temp.isSome || args.end_temp.isSome) &&
        (args.auto_temp == 1)) = false := by rw [hb1, Bool.and_false]
    unfold mainRun
    rw [hcond]
    unfold mainTry
    rw [hcfg, hc]
    simp only [hg, Bool.false_eq_true, if_false, if_neg h1, hfiles]
    rw [← h2, ← h3, hfl]
  · refine ⟨[Event.configLoad, Event.colonyLoad, Event.fileOpen,
      Event.autoTempRun], ?_⟩
    intro r evs2 lines2 hfl
    have hcond : ((args.start_temp.isSome || args.end_temp.isSome) &&
        (args.auto_temp == 1)) = false := by
      rw [h2, h3]
      rfl
    subst h5
    subst h6
    obtain ⟨f, fs, rfl⟩ : ∃ f fs, files = f :: fs := by
      cases files with
      | nil => exact absurd rfl (hne h1)
      | cons f fs => exact ⟨f, fs, rfl⟩
    unfold mainRun
    rw [hcond]
    unfold mainTry
    rw [hcfg, hc]
    simp only [hg, Bool.false_eq_true, if_false, if_pos h1, hfiles, h4,
      List.cons_append, List.nil_append]
    rw [hfl]

lemma mainRun_file_closed (args : Args) (env : Env) (fuel : Nat) (out : MainOut)
    (h : mainRun args env fuel = some out) : out.fileClosed = out.fileOpened := by
  unfold mainRun at h
  split at h
  · cases h
    rfl
  · split at h
    · exact Option.noConfusion h
    · cases h
      rfl

lemma mainTry_shape (args : Args) (env : Env) (fuel : Nat) :
    mainTry args env fuel = none ∨
    ∃ r evs opened lines, mainTry args env fuel = some (r, evs, opened, lines) ∧
      (args.global_optimization = true →
        Event.autoTempRun ∉ evs ∧
        (∀ i st et, Event.frameOptimized i st et ∉ evs) ∧
        (Event.globalOptRun ∈ evs → r = Except.ok ())) ∧
      (args.auto_temp ≠ 1 →
        r ≠ Except.error RunError.tempConflict ∧
        Event.autoTempRun ∉ evs ∧
        (∀ i st et, Event.frameOptimized i st et ∈ evs →
          st = args.start_temp ∧ et = args.end_temp)) := by
  rcases hcfg : load_config env.rawConfig with m | cfg
  · refine Or.inr ⟨Except.error (RunError.configError m), [], false, [],
      by simp [mainTry, hcfg], fun _ => ⟨by simp, fun i st et => by simp, by simp⟩,
      fun _ => ⟨by simp, by simp, fun i st et => by simp⟩⟩
  · rcases hc : env.loadColonyOutcome with e | c
    · refine Or.inr ⟨Except.error (RunError.ext e), [Event.configLoad], false, [],
        by simp [mainTry, hcfg, hc], fun _ => ⟨by simp, fun i st et => by simp, by simp⟩,
        fun _ => ⟨by simp, by simp, fun i st et => by simp⟩⟩
    · cases hgb : args.global_optimization
      · -- greedy modes
        by_cases hat : args.auto_temp = 1
        · rcases hgi : get_inputfiles env.fileExists args.frame_first args.frame_last fuel
            with _ | mfiles
          · exact Or.inl (by simp [mainTry, hcfg, hc, hgb, hgi])
          · rcases mfiles with m | files
            · refine Or.inr ⟨Except.error (RunError.inputError m),
                [Event.configLoad, Event.colonyLoad, Event.fileOpen], true,
                [String.intercalate "," (headerFor (pyLower cfg.cellType))],
                by simp [mainTry, hcfg, hc, hgb, hat, hgi],
                fun hgb' => Bool.noConfusion hgb',
                fun ha => absurd hat ha⟩
            · rcases files with _ | ⟨f, fs⟩
              · refine Or.inr ⟨Except.error RunError.indexError,
                  [Event.configLoad, Event.colonyLoad, Event.fileOpen], true,
                  [String.intercalate "," (headerFor (pyLower cfg.cellType))],
                  by simp [mainTry, hcfg, hc, hgb, hat, hgi],
                  fun hgb' => Bool.noConfusion hgb',
                  fun ha => absurd hat ha⟩
              · rcases hato : env.autoTempOutcome with e | tp
                · refine Or.inr ⟨Except.error (RunError.ext e),
                    [Event.configLoad, Event.colonyLoad, Event.fileOpen], true,
                    [String.intercalate "," (headerFor (pyLower cfg.cellType))],
                    by simp [mainTry, hcfg, hc, hgb, hat, hgi, hato],
                    fun hgb' => Bool.noConfusion hgb',
                    fun ha => absurd hat ha⟩
                · rcases tp with ⟨t1, t2⟩
                  rcases hfl : frameLoop env (pyLower cfg.cellType) (some t1) (some t2)
                      (f :: fs)
                      [Event.configLoad, Event.colonyLoad, Event.fileOpen,
                        Event.autoTempRun]
                      [String.intercalate "," (headerFor (pyLower cfg.cellType))]
                    with ⟨r, evs2, lines2⟩
                  refine Or.inr ⟨r, evs2, true, lines2,
                    by simp [mainTry, hcfg, hc, hgb, hat, hgi, hato, hfl],
                    fun hgb' => Bool.noConfusion hgb',
                    fun ha => absurd hat ha⟩
        · rcases hgi : get_inputfiles env.fileExists args.frame_first args.frame_last fuel
            with _ | mfiles
          · exact Or.inl (by simp [mainTry, hcfg, hc, hgb, hat, hgi])
          · rcases mfiles with m | files
            · refine Or.inr ⟨Except.error (RunError.inputError m),
                [Event.configLoad, Event.colonyLoad, Event.fileOpen], true,
                [String.intercalate "," (headerFor (pyLower cfg.cellType))],
                by simp [mainTry, hcfg, hc, hgb, hat, hgi],
                fun hgb' => Bool.noConfusion hgb',
                fun _ => ⟨by simp, by simp, fun i st et => by simp⟩⟩
            · rcases hfl : frameLoop env (pyLower cfg.cellType) args.start_temp
                  args.end_temp files
                  [Event.configLoad, Event.colonyLoad, Event.fileOpen]
                  [String.intercalate "," (headerFor (pyLower cfg.cellType))]
                with ⟨r, evs2, lines2⟩
              refine Or.inr ⟨r, evs2, true, lines2,
                by simp [mainTry, hcfg, hc, hgb, hat, hgi, hfl],
                fun hgb' => Bool.noConfusion hgb',
                fun _ => ⟨?_, ?_, ?_⟩⟩
              · rcases frameLoop_result_shape env (pyLower cfg.cellType)
                  args.start_temp args.end_temp files
                  [Event.configLoad, Event.colonyLoad, Event.fileOpen]
                  [String.intercalate "," (headerFor (pyLower cfg.cellType))]
                  with hr | ⟨e, hr⟩
                · rw [hfl] at hr
                  simp only at hr
                  rw [hr]
                  simp
                · rw [hfl] at hr
                  simp only at hr
                  rw [hr]
                  simp
              · intro hmem
                have hmem' : Event.autoTempRun ∈ (frameLoop env (pyLower cfg.cellType)
                    args.start_temp args.end_temp files
                    [Event.configLoad, Event.colonyLoad, Event.fileOpen]
                    [String.intercalate "," (headerFor (pyLower cfg.cellType))]).2.1 := by
                  rw [hfl]
                  exact hmem
                rcases frameLoop_events_from env (pyLower cfg.cellType)
                    args.start_temp args.end_temp files _ _ _ hmem' with h1 | ⟨i, h2⟩
                · simp at h1
                · exact Event.noConfusion h2
              · intro i st et hmem
                have hmem' : Event.frameOptimized i st et ∈ (frameLoop env
                    (pyLower cfg.cellType) args.start_temp args.end_temp files
                    [Event.configLoad, Event.colonyLoad, Event.fileOpen]
                    [String.intercalate "," (headerFor (pyLower cfg.cellType))]).2.1 := by
                  rw [hfl]
                  exact hmem
                rcases frameLoop_events_from env (pyLower cfg.cellType)
                    args.start_temp args.end_temp files _ _ _ hmem' with h1 | ⟨i', h2⟩
                · simp at h1
                · cases h2
                  exact ⟨rfl, rfl⟩
      · -- global optimization mode
        rcases hgi : get_inputfiles env.fileExists args.frame_first args.frame_last fuel
          with _ | mfiles
        · exact Or.inl (by simp [mainTry, hcfg, hc, hgb, hgi])
        · rcases mfiles with m | files
          · refine Or.inr ⟨Except.error (RunError.inputError m),
              [Event.configLoad, Event.colonyLoad, Event.fileOpen], true,
              [String.intercalate "," (headerFor (pyLower cfg.cellType))],
              by simp [mainTry, hcfg, hc, hgb, hgi],
              fun _ => ⟨by simp, fun i st et => by simp, by simp⟩,
              fun _ => ⟨by simp, by simp, fun i st et => by simp⟩⟩
          · rcases hglo : env.globalOptOutcome with e | extra
            · refine Or.inr ⟨Except.error (RunError.ext e),
                [Event.configLoad, Event.colonyLoad, Event.fileOpen], true,
                [String.intercalate "," (headerFor (pyLower cfg.cellType))],
                by simp [mainTry, hcfg, hc, hgb, hgi, hglo],
                fun _ => ⟨by simp, fun i st et => by simp, by simp⟩,
                fun _ => ⟨by simp, by simp, fun i st et => by simp⟩⟩
            · refine Or.inr ⟨Except.ok (),
                [Event.configLoad, Event.colonyLoad, Event.fileOpen, Event.globalOptRun],
                true,
                [String.intercalate "," (headerFor (pyLower cfg.cellType))] ++ extra,
                by simp [mainTry, hcfg, hc, hgb, hgi, hglo],
                fun _ => ⟨by simp, fun i st et => by simp, fun _ => rfl⟩,
                fun _ => ⟨by simp, by simp, fun i st et => by simp⟩⟩

/-- Claim C7: a non-empty cluster address together with an unset `jobs`
(sentinel `-1`) makes `parse_args` fail; with no cluster and `jobs` unset,
`jobs` defaults to `workers` (itself defaulted to the processor count), and
`parse_args` never returns with `jobs` still unset. -/
theorem parse_args_cluster_requires_jobs (p : Args) (cpu : Int) (hcpu : 1 ≤ cpu) :
    (p.jobs = -1 → p.cluster ≠ "" →
      parse_args_post cpu p =
        Except.error "-j/--jobs is required for non-local clusters") ∧
    (p.jobs = -1 → p.cluster = "" →
      ∃ q, parse_args_post cpu p = Except.ok q ∧ q.jobs = q.workers ∧
        q.workers = (if p.workers = -1 then cpu else p.workers)) ∧
    (∀ q, parse_args_post cpu p = Except.ok q → q.jobs ≠ -1) := by
  unfold parse_args_post
  by_cases hw : p.workers = -1
  · rw [if_pos hw]
    by_cases hj : p.jobs = -1
    · refine ⟨?_, ?_, ?_⟩
      · intro _ hcl
        rw [if_pos hj, if_neg hcl]
      · intro _ hcl
        rw [if_pos hj, if_pos hcl, if_pos hw]
        exact ⟨_, rfl, rfl, rfl⟩
      · intro q hq
        rw [if_pos hj] at hq
        by_cases hcl : p.cluster = ""
        · rw [if_pos hcl] at hq
          cases hq
          simp only [ne_eq]
          omega
        · rw [if_neg hcl] at hq
          cases hq
    · refine ⟨fun h _ => absurd h hj, fun h _ => absurd h hj, ?_⟩
      intro q hq
      rw [if_neg hj] at hq
      cases hq
      exact hj
  · rw [if_neg hw]
    by_cases hj : p.jobs = -1
    · refine ⟨?_, ?_, ?_⟩
      · intro _ hcl
        rw [if_pos hj, if_neg hcl]
      · intro _ hcl
        rw [if_pos hj, if_pos hcl, if_neg hw]
        exact ⟨_, rfl, rfl, rfl⟩
      · intro q hq
        rw [if_pos hj] at hq
        by_cases hcl : p.cluster = ""
        · rw [if_pos hcl] at hq
          cases hq
          exact hw
        · rw [if_neg hcl] at hq
          cases hq
    · refine ⟨fun h _ => absurd h hj, fun h _ => absurd h hj, ?_⟩
      intro q hq
      rw [if_neg hj] at hq
      cases hq
      exact hj

/-- Witness for C7: `jobs` unset with a cluster address fails; `jobs` unset
with a local cluster defaults to the processor count. -/
theorem parse_args_cluster_requires_jobs_witness :
    (parse_args_post 4 { argsBase with jobs := -1, cluster := "tcp" } =
      Except.error "-j/--jobs is required for non-local clusters") ∧
    (∃ q, parse_args_post 4 { argsBase with jobs := -1, workers := -1 } =
      Except.ok q ∧ q.jobs = q.workers ∧
      q.workers =
        (if ({ argsBase with jobs := -1, workers := -1 } : Args).workers = -1
          then 4 else ({ argsBase with jobs := -1, workers := -1 } : Args).workers)) :=
  ⟨(parse_args_cluster_requires_jobs { argsBase with jobs := -1, cluster := "tcp" }
      4 (by decide)).1 rfl (by decide),
   (parse_args_cluster_requires_jobs { argsBase with jobs := -1, workers := -1 }
      4 (by decide)).2.1 rfl rfl⟩

/-- Claim C2: requesting auto temperature mode (`auto_temp = 1`) together with
a manual `start_temp` or `end_temp` makes `main` raise immediately: the run
ends with the temperature-conflict error and an empty milestone trace — no
config loading, no colony loading, no lineage file, no optimization. -/
theorem main_auto_temp_conflict_pre_run (args : Args) (env : Env) (fuel : Nat)
    (h1 : args.start_temp ≠ none ∨ args.end_temp ≠ none)
    (h2 : args.auto_temp = 1) :
    mainRun args env fuel =
      some ⟨Except.error RunError.tempConflict, [], false, [], false⟩ := by
  have hb : ((args.start_temp.isSome || args.end_temp.isSome) &&
      (args.auto_temp == 1)) = true := by
    rcases h1 with h | h
    · simp [Option.isSome_iff_ne_none, h, h2]
    · simp [Option.isSome_iff_ne_none, h, h2]
  unfold mainRun
  rw [if_pos hb]

/-- Witness for C2: a manual `start_temp` with the default `auto_temp = 1`. -/
theorem main_auto_temp_conflict_pre_run_witness :
    mainRun { argsBase with auto_temp := 1, start_temp := some 5 } envOk 5 =
      some ⟨Except.error RunError.tempConflict, [], false, [], false⟩ :=
  main_auto_temp_conflict_pre_run
    { argsBase with auto_temp := 1, start_temp := some 5 } envOk 5
    (Or.inl (by decide)) rfl

/-- Claim C10: with global optimization enabled, `main` returns right after
the global optimizer: the auto temperature calibration never runs, the greedy
per-frame loop is never entered, and whenever the global optimizer completed,
`main` returned normally right after it. -/
theorem main_global_mode_skips_greedy (args : Args) (env : Env) (fuel : Nat)
    (out : MainOut) (hg : args.global_optimization = true)
    (h : mainRun args env fuel = some out) :
    Event.autoTempRun ∉ out.events ∧
    (∀ i st et, Event.frameOptimized i st et ∉ out.events) ∧
    (Event.globalOptRun ∈ out.events → out.result = Except.ok ()) := by
  unfold mainRun at h
  split at h
  · cases h
    exact ⟨by simp, fun i st et => by simp, fun hmem => by simp at hmem⟩
  · rcases mainTry_shape args env fuel with hmt | ⟨r, evs, opened, lines, hmt, hfact, _⟩
    · rw [hmt] at h
      exact Option.noConfusion h
    · rw [hmt] at h
      have h' : some (⟨r, evs, opened, lines, opened⟩ : MainOut) = some out := h
      cases h'
      exact hfact hg

/-- The outcome of the concrete global-optimization run used as witness. -/
def outGlobal : MainOut :=
  ⟨Except.ok (),
    [Event.configLoad, Event.colonyLoad, Event.fileOpen, Event.globalOptRun],
    true, ["file,name,x,y,width,length,rotation"], true⟩

/-- Witness for C10 on a concrete global-optimization run. -/
theorem main_global_mode_skips_greedy_witness :
    Event.autoTempRun ∉ outGlobal.events ∧
    (∀ i st et, Event.frameOptimized i st et ∉ outGlobal.events) ∧
    (Event.globalOptRun ∈ outGlobal.events → outGlobal.result = Except.ok ()) :=
  main_global_mode_skips_greedy { argsBase with global_optimization := true }
    envOk 5 outGlobal rfl (by decide)

/-- Counterexample to claim C4: with `auto_temp = 0` and the manual pair
`start_temp = 1 ≤ end_temp = 2` — which the claim says must be rejected by a
`start_temp > end_temp > 0` validation — `main` raises no error at all: it
runs both frames to completion, forwarding the invalid pair unchanged to each
frame's optimization. -/
theorem main_manual_invalid_temps_not_rejected :
    ((1 : Rat) ≤ 2) ∧
    mainRun { argsBase with auto_temp := 0, start_temp := some 1, end_temp := some 2 }
        envOk 5 =
      some ⟨Except.ok (),
        [Event.configLoad, Event.colonyLoad, Event.fileOpen,
          Event.frameOptimized 0 (some 1) (some 2),
          Event.frameOptimized 1 (some 1) (some 2)],
        true,
        ["file,name,x,y,width,length,rotation",
          "img000.png,cellA,10,20,3,4,0.5", "img001.png,cellA,10,20,3,4,0.5"],
        true⟩ :=
  ⟨by norm_num, by decide⟩

/-- Claim C4, amended: when auto mode is off (`auto_temp ≠ 1`), `main`
performs no validation of the manual temperatures: it never raises the
temperature configuration error, never calibrates, and every frame is
optimized with exactly the supplied `start_temp`/`end_temp`, whatever their
values. -/
theorem main_manual_mode_no_temp_validation (args : Args) (env : Env)
    (fuel : Nat) (out : MainOut) (hauto : args.auto_temp ≠ 1)
    (h : mainRun args env fuel = some out) :
    out.result ≠ Except.error RunError.tempConflict ∧
    Event.autoTempRun ∉ out.events ∧
    (∀ i st et, Event.frameOptimized i st et ∈ out.events →
      st = args.start_temp ∧ et = args.end_temp) := by
  unfold mainRun at h
  split at h
  · rename_i hcond
    rw [Bool.and_eq_true] at hcond
    have hone : args.auto_temp = 1 := by simpa using hcond.2
    exact absurd hone hauto
  · rcases mainTry_shape args env fuel with hmt | ⟨r, evs, opened, lines, hmt, _, hfact⟩
    · rw [hmt] at h
      exact Option.noConfusion h
    · rw [hmt] at h
      have h' : some (⟨r, evs, opened, lines, opened⟩ : MainOut) = some out := h
      cases h'
      exact hfact hauto

/-- Witness for the amended C4 on a concrete manual-mode run. -/
theorem main_manual_mode_no_temp_validation_witness :
    (⟨Except.ok (),
      [Event.configLoad, Event.colonyLoad, Event.fileOpen,
        Event.frameOptimized 0 none none, Event.frameOptimized 1 none none],
      true,
      ["file,name,x,y,width,length,rotation",
        "img000.png,cellA,10,20,3,4,0.5", "img001.png,cellA,10,20,3,4,0.5"],
      true⟩ : MainOut).result ≠ Except.error RunError.tempConflict ∧
    Event.autoTempRun ∉ (⟨Except.ok (),
      [Event.configLoad, Event.colonyLoad, Event.fileOpen,
        Event.frameOptimized 0 none none, Event.frameOptimized 1 none none],
      true,
      ["file,name,x,y,width,length,rotation",
        "img000.png,cellA,10,20,3,4,0.5", "img001.png,cellA,10,20,3,4,0.5"],
      true⟩ : MainOut).events ∧
    (∀ i st et, Event.frameOptimized i st et ∈ (⟨Except.ok (),
      [Event.configLoad, Event.colonyLoad, Event.fileOpen,
        Event.frameOptimized 0 none none, Event.frameOptimized 1 none none],
      true,
      ["file,name,x,y,width,length,rotation",
        "img000.png,cellA,10,20,3,4,0.5", "img001.png,cellA,10,20,3,4,0.5"],
      true⟩ : MainOut).events →
      st = argsBase.start_temp ∧ et = argsBase.end_temp) :=
  main_manual_mode_no_temp_validation argsBase envOk 5 _ (by decide) (by decide)

/-- Claim C5: the lineage handle, once opened, is always closed by the
`finally` block on every exit path of `main`; and when a
`KeyboardInterrupt` arrives during the optimization of frame `ik`, after the
frames of `done` completed, the run propagates the interrupt with the file
containing the header plus exactly one row per cell of each completed frame —
and no row for the interrupted frame. -/
theorem main_lineage_closed_and_interrupt_rows (args : Args) (env : Env)
    (fuel : Nat) (cfg : RawConfig) (colOf : Int → Colony) (done rest : List Int)
    (ik : Int) (st et : Option Rat)
    (hg : args.global_optimization = false)
    (hcfg : load_config env.rawConfig = Except.ok cfg)
    (hcol : ∃ c, env.loadColonyOutcome = Except.ok c)
    (hfiles : get_inputfiles env.fileExists args.frame_first args.frame_last fuel =
      some (Except.ok (done ++ ik :: rest)))
    (htemps : (args.auto_temp ≠ 1 ∧ st = args.start_temp ∧ et = args.end_temp) ∨
      (args.auto_temp = 1 ∧ args.start_temp = none ∧ args.end_temp = none ∧
        ∃ t1 t2, env.autoTempOutcome = Except.ok (t1, t2) ∧
          st = some t1 ∧ et = some t2))
    (hdone : ∀ j ∈ done, env.optimizeOutcome j st et = Except.ok (colOf j))
    (hint : env.optimizeOutcome ik st et = Except.error ExtErr.keyboardInterrupt) :
    (∀ (a : Args) (e : Env) (n : Nat) (o : MainOut),
        mainRun a e n = some o → o.fileOpened = true → o.fileClosed = true) ∧
    (∃ evs, mainRun args env fuel =
      some ⟨Except.error (RunError.ext ExtErr.keyboardInterrupt), evs, true,
        String.intercalate "," (headerFor (pyLower cfg.cellType)) ::
          done.flatMap (fun j => (colOf j).map
            (rowFor (pyLower cfg.cellType) (env.fileName j))), true⟩) := by
  constructor
  · intro a e n o ho hop
    rw [mainRun_file_closed a e n o ho, hop]
  · have hne : args.auto_temp = 1 → done ++ ik :: rest ≠ [] := by
      intro _
      simp
    obtain ⟨evs0, H⟩ := mainRun_reaches_loop args env fuel cfg (done ++ ik :: rest)
      st et hg hcfg hcol hfiles hne htemps
    have hfl := frameLoop_stops_at_error env (pyLower cfg.cellType) st et colOf
      ExtErr.keyboardInterrupt done ik rest evs0
      [String.intercalate "," (headerFor (pyLower cfg.cellType))] hdone hint
    exact ⟨evs0 ++ done.map (fun j => Event.frameOptimized j st et), H _ _ _ hfl⟩

/-- Witness for C5: frame 0 completes, the interrupt arrives during frame 1;
the file holds the header plus exactly the row of frame 0. -/
theorem main_lineage_closed_and_interrupt_rows_witness :
    (∀ (a : Args) (e : Env) (n : Nat) (o : MainOut),
        mainRun a e n = some o → o.fileOpened = true → o.fileClosed = true) ∧
    (∃ evs, mainRun argsBase envInt 5 =
      some ⟨Except.error (RunError.ext ExtErr.keyboardInterrupt), evs, true,
        String.intercalate "," (headerFor (pyLower envInt.rawConfig.cellType)) ::
          ([0] : List Int).flatMap (fun j => [cellA].map
            (rowFor (pyLower envInt.rawConfig.cellType) (envInt.fileName j))),
        true⟩) :=
  main_lineage_closed_and_interrupt_rows argsBase envInt 5
    envInt.rawConfig (fun _ => [cellA]) [0] [] 1 none none rfl (by decide)
    ⟨[cellA], by decide⟩ (by decide) (Or.inl ⟨by decide, rfl, rfl⟩)
    (by
      intro j hj
      simp only [List.mem_singleton] at hj
      subst hj
      decide)
    (by decide)

/-- Claim C6: in a successful greedy run over the bacilli cell type, the
lineage file consists of the header row `file,name,x,y,width,length,rotation`
written once, followed — frame by frame, in order — by exactly one row per
cell of each frame's committed colony, with the columns in that order. -/
theorem main_lineage_rows_per_frame (args : Args) (env : Env) (fuel : Nat)
    (cfg : RawConfig) (colOf : Int → Colony) (files : List Int)
    (st et : Option Rat)
    (hg : args.global_optimization = false)
    (hcfg : load_config env.rawConfig = Except.ok cfg)
    (hbac : pyLower cfg.cellType = "bacilli")
    (hcol : ∃ c, env.loadColonyOutcome = Except.ok c)
    (hfiles : get_inputfiles env.fileExists args.frame_first args.frame_last fuel =
      some (Except.ok files))
    (hne : args.auto_temp = 1 → files ≠ [])
    (htemps : (args.auto_temp ≠ 1 ∧ st = args.start_temp ∧ et = args.end_temp) ∨
      (args.auto_temp = 1 ∧ args.start_temp = none ∧ args.end_temp = none ∧
        ∃ t1 t2, env.autoTempOutcome = Except.ok (t1, t2) ∧
          st = some t1 ∧ et = some t2))
    (hok : ∀ j ∈ files, env.optimizeOutcome j st et = Except.ok (colOf j)) :
    ∃ evs, mainRun args env fuel =
      some ⟨Except.ok (), evs, true,
        String.intercalate "," ["file", "name", "x", "y", "width", "length", "rotation"] ::
          files.flatMap (fun j => (colOf j).map (fun c =>
            String.intercalate "," [env.fileName j, c.name, c.x, c.y, c.width,
              c.length, c.rotation])), true⟩ := by
  obtain ⟨evs0, H⟩ := mainRun_reaches_loop args env fuel cfg files st et hg hcfg
    hcol hfiles hne htemps
  have hfl := frameLoop_all_ok env (pyLower cfg.cellType) st et colOf files evs0
    [String.intercalate "," (headerFor (pyLower cfg.cellType))] hok
  have He := H _ _ _ hfl
  refine ⟨evs0 ++ files.map (fun j => Event.frameOptimized j st et), ?_⟩
  rw [He]
  have hrow : ∀ j : Int, rowFor "bacilli" (env.fileName j) = fun c =>
      String.intercalate "," [env.fileName j, c.name, c.x, c.y, c.width,
        c.length, c.rotation] := by
    intro j
    funext c
    simp [rowFor]
  simp [headerFor, hbac, hrow]

/-- Witness for C6 on a concrete two-frame run with one cell per colony. -/
theorem main_lineage_rows_per_frame_witness :
    ∃ evs, mainRun argsBase envOk 5 =
      some ⟨Except.ok (), evs, true,
        String.intercalate "," ["file", "name", "x", "y", "width", "length", "rotation"] ::
          ([0, 1] : List Int).flatMap (fun j => [cellA].map (fun c =>
            String.intercalate "," [envOk.fileName j, c.name, c.x, c.y, c.width,
              c.length, c.rotation])),
        true⟩ :=
  main_lineage_rows_per_frame argsBase envOk 5 envOk.rawConfig
    (fun _ => [cellA]) [0, 1] none none rfl (by decide) (by decide)
    ⟨[cellA], by decide⟩ (by decide) (fun h => by decide)
    (Or.inl ⟨by decide, rfl, rfl⟩)
    (by
      intro j hj
      simp only [List.mem_cons, List.not_mem_nil, or_false] at hj
      rcases hj with rfl | rfl
      · decide
      · decide)

end CellUniverse
